import Mathlib

/-!
Shallow embedding of the piper-server-prototype-Ts backend: the tenant-filter
derivation, the print-job store handlers, the login handlers, the OTP flow and
the user-model save hooks, together with theorems about the claims of the
specification.  ObjectIds are modelled as strings, timestamps as naturals
(milliseconds), and the document database as an in-memory list of records.
-/

namespace PiperServer

/-- Generic HTTP-handler outcome: an `ok` response carrying a status code and a
data payload, or an `err` response carrying a status code and a message
(`res.status(c).json(\x7bsuccess:false, message\x7d)` in the source). -/
inductive Resp (α : Type) : Type
  | ok (status : Nat) (data : α)
  | err (status : Nat) (message : String)
deriving DecidableEq, Repr

/-! ## Token resolution and the tenant filter

`AuthController.verifyToken` decodes the bearer token and stores on `req.user`
the fields of the payload: clerk tokens carry `clerkId`, `role="clerk"` and
`adminId` (clerk.model `generateAuthToken`); admin tokens carry `userId` and
`role="admin"` (user.model `generateAuthToken`); a client token payload has
only `clientId`/`type`, so after that middleware every field below is absent.
An absent field is `none` (JS `undefined`, falsy). -/

/-- The decoded `req.user` object as the printer/dashboard controllers see it. -/
structure DecodedUser : Type where
  userId : Option String
  clerkId : Option String
  role : Option String
  adminId : Option String
deriving DecidableEq, Repr

/-- `req.user` produced by a clerk token: `clerkId`, `role: "clerk"` and the
creating admin's id embedded as `adminId`. -/
def clerkTokenUser (clerkId adminId : String) : DecodedUser :=
  { userId := none, clerkId := some clerkId, role := some "clerk", adminId := some adminId }

/-- `req.user` produced by an admin token: `userId` and `role: "admin"`,
no `adminId` field. -/
def adminTokenUser (userId : String) : DecodedUser :=
  { userId := some userId, clerkId := none, role := some "admin", adminId := none }

/-- `req.user` produced by a client token: the payload has only
`clientId`/`email`/`type`, so `userId`, `clerkId`, `role`, `adminId` are all
absent. -/
def clientTokenUser : DecodedUser :=
  { userId := none, clerkId := none, role := none, adminId := none }

/-- `PrinterController.buildAdminIdFilter` (identical in
`DashboardController`): from the decoded user alone it derives the tenant
filter `\x7badminId: X\x7d` (`some X` here) or the empty filter (`none`).
If `user.adminId` is present it wins; otherwise an admin (`role === "admin"`
with a `userId`) is scoped to its own id; otherwise the filter is empty. -/
def buildAdminIdFilter : Option DecodedUser → Option String
  | none => none
  | some u =>
    match u.adminId with
    | some a => some a
    | none => if u.role = some "admin" then u.userId else none

/-- An incoming print-job request: the decoded principal plus whatever
`adminId` the caller put in the body or the query string. -/
structure PrintRequest : Type where
  user : Option DecodedUser
  bodyAdminId : Option String
  queryAdminId : Option String
deriving DecidableEq, Repr

/-- The filter every print-job handler applies: computed from `req.user` only
(the handlers never read `req.body.adminId` or the query when scoping). -/
def requestTenantFilter (r : PrintRequest) : Option String :=
  buildAdminIdFilter r.user

/-! ## Print job store -/

/-- A `pdfPrintModel` document (the fields the handlers under scrutiny touch). -/
structure PrintJob : Type where
  id : String
  adminId : String
  clientId : String
  status : String
  fileName : String
  filePath : String
  fileSize : Nat
  cloudinaryPublicId : Option String
  cloudinaryUrl : Option String
  errorMessage : Option String
deriving DecidableEq, Repr

/-- Does a job satisfy the tenant filter (`none` = empty filter matches all)? -/
def matchesFilter (f : Option String) (j : PrintJob) : Bool :=
  match f with
  | none => true
  | some a => j.adminId == a

/-- `pdfPrintModel.findOne(\x7b_id: id, ...adminIdFilter\x7d)`: the first
document matching both the id and the tenant filter. -/
def findOneJob (db : List PrintJob) (id : String) (f : Option String) : Option PrintJob :=
  db.find? (fun j => j.id == id && matchesFilter f j)

/-- `PrinterController.getPrintJob`: looks the job up with the tenant filter
merged into the query; a miss (nonexistent id or filtered out) is a uniform
404 response. -/
def getPrintJob (db : List PrintJob) (f : Option String) (id : String) : Resp PrintJob :=
  match findOneJob db id f with
  | some j => .ok 200 j
  | none => .err 404 "Print job not found or access denied"

/-- The status whitelist of `updatePrintJobStatus`
(`validStatuses = ["pending", "processing", "completed", "failed"]`). -/
def validStatuses : List String := ["pending", "processing", "completed", "failed"]

/-- The 400 message for a status outside the whitelist. -/
def invalidStatusMessage : String :=
  "Invalid status. Must be one of: pending, processing, completed, failed"

/-- `pdfPrintModel.findOneAndUpdate(\x7b_id, ...filter\x7d, upd, \x7bnew: true\x7d)`:
updates the first matching document in place and returns the updated document. -/
def findOneAndUpdateJob (db : List PrintJob) (id : String) (f : Option String)
    (upd : PrintJob → PrintJob) : Option PrintJob × List PrintJob :=
  match db with
  | [] => (none, [])
  | j :: rest =>
    if j.id == id && matchesFilter f j then (some (upd j), upd j :: rest)
    else
      let r := findOneAndUpdateJob rest id f upd
      (r.1, j :: r.2)

/-- The update `\x7bstatus, errorMessage?\x7d` applied by `updatePrintJobStatus`
(`errorMessage` is set only when the request supplied a truthy one). -/
def statusUpdate (status : String) (errMsg : Option String) (j : PrintJob) : PrintJob :=
  { j with
    status := status
    errorMessage := match errMsg with | some m => some m | none => j.errorMessage }

/-- `PrinterController.updatePrintJobStatus`: rejects a status outside the
whitelist with 400; looks the job up under the tenant filter (404 on miss);
otherwise overwrites the status (and optional error message) via
`findOneAndUpdate` with the same filter, with no check of the current status. -/
def updatePrintJobStatus (db : List PrintJob) (f : Option String) (id : String)
    (status : String) (errMsg : Option String) : Resp PrintJob × List PrintJob :=
  if !(validStatuses.contains status) then (.err 400 invalidStatusMessage, db)
  else
    match findOneJob db id f with
    | none => (.err 404 "Print job not found or access denied", db)
    | some _ =>
      match findOneAndUpdateJob db id f (statusUpdate status errMsg) with
      | (some j2, db2) => (.ok 200 j2, db2)
      | (none, db2) => (.err 404 "Print job not found or access denied", db2)

/-- The payload of `getPrintStats` (the per-status aggregation rows are not
needed by any claim; `successRate` is the rational the handler computes). -/
structure PrintStats : Type where
  totalJobs : Nat
  completedJobs : Nat
  successRate : ℚ
deriving DecidableEq, Repr

/-- `PrinterController.getPrintStats`: counts the tenant's jobs and its
completed jobs, and reports
`successRate = totalJobs > 0 ? (completedJobs / totalJobs) * 100 : 0`. -/
def getPrintStats (db : List PrintJob) (f : Option String) : PrintStats :=
  let totalJobs := (db.filter (fun j => matchesFilter f j)).length
  let completedJobs :=
    (db.filter (fun j => matchesFilter f j && j.status == "completed")).length
  { totalJobs := totalJobs
    completedJobs := completedJobs
    successRate :=
      if totalJobs > 0 then ((completedJobs : ℚ) / (totalJobs : ℚ)) * 100 else 0 }

/-! ## PDF submission -/

/-- The multer upload on `req.file`. -/
structure UploadedFile : Type where
  path : String
  originalname : String
  size : Nat
deriving DecidableEq, Repr

/-- The form fields of `req.body` read by `submitPDF`; a JS-falsy (absent or
empty) string stands for a missing field. -/
structure SubmitBody : Type where
  artwork : String
  width : String
  height : String
  quantity : String
  location : String
  adminId : String
  printerName : String
  description : String
deriving DecidableEq, Repr

/-- Outcome of the external `cloudinary.uploader.upload` call: a result with
both `public_id` and `secure_url` present, a result missing one of them
(invalid data), or a thrown error. -/
inductive CloudinaryOutcome : Type
  | uploaded (publicId url : String)
  | invalidData
  | failed
deriving DecidableEq, Repr

/-- `PrinterController.submitPDF`: validates the client id, the file and the
required form fields (including the `adminId` format, whose external
`ObjectId.isValid` verdict is the `adminIdValidFormat` argument), attempts the
Cloudinary upload, and creates the job record: `filePath` is the remote URL
when the upload succeeded and the local `file.path` otherwise, status always
`"pending"`.  The upload outcome never aborts the submission. -/
def submitPDF (clientId : Option String) (file : Option UploadedFile)
    (body : SubmitBody) (adminIdValidFormat : Bool) (upload : CloudinaryOutcome)
    (newId : String) : Resp PrintJob :=
  match clientId with
  | none => .err 400 "Client ID is required"
  | some cid =>
    match file with
    | none => .err 400 "No file uploaded"
    | some f =>
      if body.artwork == "" || body.width == "" || body.height == "" ||
          body.quantity == "" || body.location == "" || body.adminId == "" then
        .err 400 "Missing required fields: artwork, width, height, quantity, location, and adminId are required"
      else if !adminIdValidFormat then
        .err 400 "Invalid adminId format"
      else
        let cloud : Option (String × String) :=
          match upload with
          | .uploaded p u => some (p, u)
          | .invalidData => none
          | .failed => none
        .ok 201
          { id := newId
            adminId := body.adminId
            clientId := cid
            status := "pending"
            fileName := f.originalname
            filePath := match cloud with | some pu => pu.2 | none => f.path
            fileSize := f.size
            cloudinaryPublicId := cloud.map (fun pu => pu.1)
            cloudinaryUrl := cloud.map (fun pu => pu.2)
            errorMessage := none }

/-! ## Login handlers

Password verification (`bcrypt.compare(candidate, storedHash)`) is embedded as
string equality of the candidate with the stored secret: the hash round-trip
is the external collaborator, its contract being exactly that `compare`
succeeds for the original password and fails otherwise. -/

/-- A `Client` document (`client.model`), as touched by `ClientController`. -/
structure ClientAccount : Type where
  email : String
  password : String
  fullName : String
  isActive : Bool
  lastLogin : Option Nat
deriving DecidableEq, Repr

/-- A `User` document (admin), as touched by `AuthController.login`. -/
structure AdminAccount : Type where
  email : String
  password : String
  name : String
  isActive : Bool
  lastLogin : Option Nat
deriving DecidableEq, Repr

/-- A `Clerk` document, as touched by `AuthController.login`. -/
structure ClerkAccount : Type where
  email : String
  password : String
  name : String
  adminId : String
  isActive : Bool
  lastLogin : Option Nat
deriving DecidableEq, Repr

/-- Replace the first element satisfying `p` by `upd` of it (a mongoose
`document.save()` after mutating the found document). -/
def saveFirst {α : Type} (p : α → Bool) (upd : α → α) : List α → List α
  | [] => []
  | x :: xs => if p x then upd x :: xs else x :: saveFirst p upd xs

/-- `ClientController.login`: finds the client by email only (no `isActive`
check); a missing account is answered with 401 "Something went wrong", a
password mismatch with 401 "Invalid email or password"; on success
`lastLogin` is set and the client data returned. -/
def clientLogin (db : List ClientAccount) (email password : String) (now : Nat) :
    Resp ClientAccount × List ClientAccount :=
  match db.find? (fun c => c.email == email) with
  | none => (.err 401 "Something went wrong", db)
  | some c =>
    if password == c.password then
      (.ok 200 { c with lastLogin := some now },
       saveFirst (fun x => x.email == email) (fun x => { x with lastLogin := some now }) db)
    else
      (.err 401 "Invalid email or password", db)

/-- `AuthController.login`: looks up an active admin by email; failing that an
active clerk; unknown/inactive email and password mismatch all answer 401
"Invalid email or password"; on success `lastLogin` is set and the principal
role is reported.  Returns (response carrying the role tag, admins, clerks). -/
def authLogin (admins : List AdminAccount) (clerks : List ClerkAccount)
    (email password : String) (now : Nat) :
    Resp String × List AdminAccount × List ClerkAccount :=
  match admins.find? (fun u => u.email == email && u.isActive) with
  | some u =>
    if password == u.password then
      (.ok 200 "admin",
       saveFirst (fun x => x.email == email && x.isActive)
         (fun x => { x with lastLogin := some now }) admins,
       clerks)
    else
      (.err 401 "Invalid email or password", admins, clerks)
  | none =>
    match clerks.find? (fun c => c.email == email && c.isActive) with
    | some c =>
      if password == c.password then
        (.ok 200 "clerk", admins,
         saveFirst (fun x => x.email == email && x.isActive)
           (fun x => { x with lastLogin := some now }) clerks)
      else
        (.err 401 "Invalid email or password", admins, clerks)
    | none => (.err 401 "Invalid email or password", admins, clerks)

/-! ## OTP flow -/

/-- An `OTP` document (`otp.model`). -/
structure OTPRecord : Type where
  oid : Nat
  email : String
  otp : String
  expiresAt : Nat
  verified : Bool
  attempts : Nat
deriving DecidableEq, Repr

/-- `OTP.findValidOTP(email)`:
`findOne(\x7bemail, verified: false, expiresAt: \x7b$gt: new Date()\x7d\x7d)`. -/
def findValidOTP (db : List OTPRecord) (email : String) (now : Nat) : Option OTPRecord :=
  db.find? (fun r => r.email == email && !r.verified && now < r.expiresAt)

/-- `otp.isExpired()`: `new Date() > expiresAt`. -/
def otpIsExpired (r : OTPRecord) (now : Nat) : Bool :=
  r.expiresAt < now

/-- `otp.isValid()`: not verified, not expired, and fewer than 5 attempts. -/
def otpIsValid (r : OTPRecord) (now : Nat) : Bool :=
  !r.verified && !(otpIsExpired r now) && r.attempts < 5

/-- `OTP.deleteOne(\x7b_id\x7d)`. -/
def deleteOTPById (db : List OTPRecord) (oid : Nat) : List OTPRecord :=
  db.filter (fun r => !(r.oid == oid))

/-- `OTP.deleteMany(\x7bemail, verified: false\x7d)`. -/
def deleteUnverifiedOTPs (db : List OTPRecord) (email : String) : List OTPRecord :=
  db.filter (fun r => !(r.email == email && !r.verified))

/-- Result of `OTPController.sendOTP`: the HTTP response, the OTP store after
the call, and the code handed to the email collaborator. -/
structure SendOTPResult : Type where
  resp : Resp String
  db : List OTPRecord
  sentCode : String
deriving DecidableEq, Repr

/-- `OTPController.sendOTP`: reuses a still-valid unverified OTP for the email
if one exists, otherwise deletes the email's unverified OTPs and inserts a
fresh 6-digit code (`freshCode`, an external random draw, stored with a new
`_id` `freshId` and a 30-minute expiry); then dispatches the email
(`emailOk` is the collaborator's verdict).  On dispatch failure the OTP
document is deleted again and the call fails with 500. -/
def sendOTP (db : List OTPRecord) (email : String) (now : Nat)
    (freshCode : String) (freshId : Nat) (emailOk : Bool) : SendOTPResult :=
  let reuse : Option OTPRecord :=
    match findValidOTP db email now with
    | some r => if otpIsValid r now then some r else none
    | none => none
  let (code, docId, db1) :=
    match reuse with
    | some r => (r.otp, r.oid, db)
    | none =>
      (freshCode, freshId,
       deleteUnverifiedOTPs db email ++
         [{ oid := freshId, email := email, otp := freshCode,
            expiresAt := now + 30 * 60 * 1000, verified := false, attempts := 0 }])
  if emailOk then
    { resp := .ok 200 "OTP sent successfully to your email", db := db1, sentCode := code }
  else
    { resp := .err 500 "Failed to send OTP email. Please try again.",
      db := deleteOTPById db1 docId, sentCode := code }

/-- Result of `OTPController.verifyOTP`: status code, success flag, message,
the reported `remainingAttempts` field (present only on a wrong guess), and
the OTP store after the call. -/
structure VerifyOTPResult : Type where
  status : Nat
  success : Bool
  message : String
  remainingAttempts : Option Nat
  db : List OTPRecord
deriving DecidableEq, Repr

/-- `OTPController.verifyOTP`: finds the valid OTP for the email (400 if
none); deletes the record and refuses once `attempts >= 5`; deletes expired
records; a wrong code increments `attempts` and reports the remaining count;
the right code marks the record verified. -/
def verifyOTP (db : List OTPRecord) (email code : String) (now : Nat) : VerifyOTPResult :=
  match findValidOTP db email now with
  | none =>
    { status := 400, success := false,
      message := "Invalid or expired OTP. Please request a new one.",
      remainingAttempts := none, db := db }
  | some r =>
    if r.attempts ≥ 5 then
      { status := 400, success := false,
        message := "Maximum verification attempts exceeded. Please request a new OTP.",
        remainingAttempts := none, db := deleteOTPById db r.oid }
    else if otpIsExpired r now then
      { status := 400, success := false,
        message := "OTP has expired. Please request a new one.",
        remainingAttempts := none, db := deleteOTPById db r.oid }
    else if !(r.otp == code) then
      let remaining := 5 - (r.attempts + 1)
      { status := 400, success := false,
        message := "Invalid OTP. " ++
          (if remaining > 0 then toString remaining ++ " attempt(s) remaining."
           else "Maximum attempts exceeded."),
        remainingAttempts := some remaining,
        db := saveFirst (fun x => x.oid == r.oid)
          (fun x => { x with attempts := x.attempts + 1 }) db }
    else
      { status := 200, success := true, message := "Email verified successfully",
        remainingAttempts := none,
        db := saveFirst (fun x => x.oid == r.oid)
          (fun x => { x with verified := true }) db }

/-! ## User model: roles, permissions and the save hook -/

/-- `UserRole` (`user.model`): only `admin` and `clerk` are live. -/
inductive Role : Type
  | admin
  | clerk
deriving DecidableEq, Repr

/-- `ROLE_PERMISSIONS` (`user.model`): the fixed role-to-default-permission
mapping. -/
def rolePermissions : Role → List String
  | .admin =>
    ["manage_users", "view_analytics", "manage_system", "view_all_jobs",
     "manage_jobs", "submit_prints", "view_agents", "view_reports",
     "manage_agents", "maintain_printers", "view_logs"]
  | .clerk => ["manage_jobs", "submit_prints", "view_agents", "view_own_jobs"]

/-- A `User` document as the permissions claims need it. -/
structure UserDoc : Type where
  email : String
  name : String
  role : Role
  permissions : List String
  isActive : Bool
deriving DecidableEq, Repr

/-- The `userSchema.pre("save")` permissions hook: when the role path is
modified on this save, the permissions are overwritten with
`ROLE_PERMISSIONS[role]`. -/
def applySaveHook (roleModified : Bool) (u : UserDoc) : UserDoc :=
  if roleModified then { u with permissions := rolePermissions u.role } else u

/-- `UserController.createUser`: builds
`new User(\x7bemail, password, name, role, permissions: permissions or []\x7d)`
and saves it.  On a new document the explicitly assigned `role` path is
modified, so the save hook runs. -/
def createUser (email name : String) (role : Role)
    (reqPermissions : Option (List String)) : UserDoc :=
  applySaveHook true
    { email := email, name := name, role := role,
      permissions := reqPermissions.getD [], isActive := true }

/-- `UserController.updateUser` on a loaded document: assigns the supplied
fields and saves.  Mongoose marks the `role` path modified only when the
assigned value differs from the stored one, so the hook runs exactly then. -/
def updateUserDoc (u : UserDoc) (newRole : Option Role)
    (newPermissions : Option (List String)) : UserDoc :=
  let u1 := match newRole with | some r => { u with role := r } | none => u
  let u2 := match newPermissions with | some p => { u1 with permissions := p } | none => u1
  let roleModified := match newRole with | some r => decide (r ≠ u.role) | none => false
  applySaveHook roleModified u2

/-! ## Fixture data for witnesses and counterexamples -/

/-- A completed job of tenant `a1`, used as concrete input. -/
def jobCompletedW : PrintJob :=
  { id := "j1", adminId := "a1", clientId := "c1", status := "completed",
    fileName := "f.pdf", filePath := "/tmp/f.pdf", fileSize := 10,
    cloudinaryPublicId := none, cloudinaryUrl := none, errorMessage := none }

/-- A pending job of tenant `a1`, used as concrete input. -/
def jobPendingW : PrintJob :=
  { jobCompletedW with id := "j2", status := "pending" }

/-- An inactive client with a known password, used as concrete input. -/
def inactiveClientW : ClientAccount :=
  { email := "user@example.com", password := "secret1", fullName := "Ina Active",
    isActive := false, lastLogin := none }

/-- An active clerk with a known password, used as concrete input. -/
def activeClerkW : ClerkAccount :=
  { email := "clerk@example.com", password := "pw1", name := "Kay", adminId := "a1",
    isActive := true, lastLogin := none }

/-- An unverified OTP record, used as concrete input. -/
def otpRecordW : OTPRecord :=
  { oid := 1, email := "user@example.com", otp := "123456",
    expiresAt := 1000, verified := false, attempts := 0 }

/-! ## Helper lemmas -/

/-- `find?` with a predicate that pins an element by a duplicate-free key
returns exactly that element when it is present and satisfies the extra
condition. -/
theorem find?_unique_key {α β : Type} [BEq β] [LawfulBEq β] (key : α → β)
    {db : List α} {a : α} (q : α → Bool)
    (hmem : a ∈ db) (hnodup : (db.map key).Nodup) (hq : q a = true) :
    db.find? (fun x => key x == key a && q x) = some a := by
  induction db with
  | nil => simp at hmem
  | cons x xs ih =>
    rw [List.map_cons, List.nodup_cons] at hnodup
    rcases List.mem_cons.mp hmem with rfl | hmem'
    · exact List.find?_cons_of_pos _ (by simp [hq])
    · have hne : key x ≠ key a :=
        fun h => hnodup.1 (h ▸ List.mem_map_of_mem key hmem')
      rw [List.find?_cons_of_neg]
      · exact ih hmem' hnodup.2
      · intro hcontra
        exact hne (beq_iff_eq.mp ((Bool.and_eq_true _ _).mp hcontra).1)

/-- `findOneAndUpdateJob` returns the update applied to what `findOne` with
the same query finds, and leaves the rest of the store alone. -/
theorem findOneAndUpdateJob_fst (db : List PrintJob) (id : String) (f : Option String)
    (upd : PrintJob → PrintJob) :
    (findOneAndUpdateJob db id f upd).1 = (findOneJob db id f).map upd := by
  induction db with
  | nil => rfl
  | cons x xs ih =>
    by_cases h : (x.id == id && matchesFilter f x) = true
    · simp [findOneAndUpdateJob, findOneJob, List.find?_cons_of_pos _ h, h]
    · simp only [findOneAndUpdateJob, findOneJob, h, if_false, Bool.false_eq_true]
      rw [List.find?_cons_of_neg _ (by simp [h])]
      exact ih

/-- Filtering with a conjunction keeps at most as many elements as filtering
with one conjunct. -/
theorem length_filter_and_le {α : Type} (p q : α → Bool) (l : List α) :
    (l.filter (fun x => p x && q x)).length ≤ (l.filter p).length := by
  induction l with
  | nil => simp
  | cons x xs ih =>
    simp only [List.filter_cons]
    cases hp : p x <;> cases hq : q x <;> simp [hp, hq] <;> omega

/-! ## Claims -/

/-- Claim C1: the tenant filter applied to print-job operations is derived
only from the decoded token: a clerk principal always yields the filter with
its embedded `adminId`, an admin principal yields the filter with its own
`userId`, and a client or unauthenticated caller yields the empty filter,
regardless of any `adminId` supplied in the request body or query. -/
theorem tenantFilter_derived_only_from_token (clerkId adm userId : String)
    (b1 b2 q1 q2 : Option String) :
    requestTenantFilter
        { user := some (clerkTokenUser clerkId adm), bodyAdminId := b1, queryAdminId := q1 }
      = some adm
  ∧ requestTenantFilter
        { user := some (adminTokenUser userId), bodyAdminId := b2, queryAdminId := q2 }
      = some userId
  ∧ requestTenantFilter
        { user := some clientTokenUser, bodyAdminId := b1, queryAdminId := q1 }
      = none
  ∧ requestTenantFilter { user := none, bodyAdminId := b2, queryAdminId := q2 } = none := by
  refine ⟨rfl, ?_, rfl, rfl⟩
  simp [requestTenantFilter, buildAdminIdFilter, adminTokenUser]

/-- Claim C2: `getPrintJob` returns a stored job exactly when the tenant
filter is empty or carries that job's `adminId`; every miss — nonexistent id
or a job filtered out by the tenant filter — is answered with the one uniform
404 response, never a 403. -/
theorem getPrintJob_tenant_isolation (db : List PrintJob) (f : Option String)
    (J : PrintJob) (hmem : J ∈ db) (hnodup : (db.map PrintJob.id).Nodup) :
    (getPrintJob db f J.id = .ok 200 J ↔ (f = none ∨ f = some J.adminId))
  ∧ (∀ id, findOneJob db id f = none →
      getPrintJob db f id = .err 404 "Print job not found or access denied") := by
  constructor
  · constructor
    · intro h
      have hfind : findOneJob db J.id f = some J := by
        unfold getPrintJob at h
        cases hf : findOneJob db J.id f with
        | none => rw [hf] at h; exact absurd h (by simp)
        | some j => rw [hf] at h; cases h; rfl
      have hpred := List.find?_some hfind
      have hmf : matchesFilter f J = true := ((Bool.and_eq_true _ _).mp hpred).2
      cases f with
      | none => exact Or.inl rfl
      | some a =>
        refine Or.inr ?_
        have : J.adminId = a := beq_iff_eq.mp hmf
        rw [this]
    · intro h
      have hmf : matchesFilter f J = true := by
        rcases h with h | h <;> subst h <;> simp [matchesFilter]
      have hfind : findOneJob db J.id f = some J :=
        find?_unique_key PrintJob.id (matchesFilter f) hmem hnodup hmf
      unfold getPrintJob
      rw [hfind]
  · intro id h
    unfold getPrintJob
    rw [h]

/-- Witness for C2 at a one-job store owned by tenant `a1`. -/
theorem getPrintJob_tenant_isolation_witness :
    (jobCompletedW ∈ [jobCompletedW] ∧ ([jobCompletedW].map PrintJob.id).Nodup)
  ∧ (getPrintJob [jobCompletedW] (some "a2") jobCompletedW.id = .ok 200 jobCompletedW
       ↔ (some "a2" = none ∨ (some "a2" : Option String) = some jobCompletedW.adminId))
  ∧ (findOneJob [jobCompletedW] "missing" (some "a2") = none →
      getPrintJob [jobCompletedW] (some "a2") "missing"
        = .err 404 "Print job not found or access denied") :=
  ⟨⟨by decide, by decide⟩,
   (getPrintJob_tenant_isolation [jobCompletedW] (some "a2") jobCompletedW
      (by decide) (by decide)).1,
   (getPrintJob_tenant_isolation [jobCompletedW] (some "a2") jobCompletedW
      (by decide) (by decide)).2 "missing"⟩

/-- Claim C3 counterexample: a job whose status is the terminal `"completed"`
is updated to `"pending"` by `updatePrintJobStatus` with a 200 success
response and its stored status changes — the claimed `InvalidState` failure
and state-machine enforcement do not exist in the code. -/
theorem updateStatus_terminal_overwrite_counterexample :
    (updatePrintJobStatus [jobCompletedW] none "j1" "pending" none).1
      = .ok 200 { jobCompletedW with status := "pending" }
  ∧ (updatePrintJobStatus [jobCompletedW] none "j1" "pending" none).2
      = [{ jobCompletedW with status := "pending" }]
  ∧ jobCompletedW.status = "completed" := by
  refine ⟨?_, ?_, rfl⟩ <;> rfl

/-- Claim C3 (amended): `updatePrintJobStatus` enforces no state machine: for
a job visible under the tenant filter it overwrites the stored status with any
status in the whitelist, whatever the current status (terminal ones included),
answering 200; the only rejected inputs are status values outside
`validStatuses`, refused with 400 leaving the store unchanged. -/
theorem updateStatus_overwrites_any_whitelisted_status (db : List PrintJob)
    (f : Option String) (J : PrintJob) (s : String) (errMsg : Option String)
    (hmem : J ∈ db) (hnodup : (db.map PrintJob.id).Nodup)
    (hmatch : matchesFilter f J = true) :
    (validStatuses.contains s = true →
      (updatePrintJobStatus db f J.id s errMsg).1 = .ok 200 (statusUpdate s errMsg J)
      ∧ (statusUpdate s errMsg J).status = s)
  ∧ (validStatuses.contains s = false →
      updatePrintJobStatus db f J.id s errMsg = (.err 400 invalidStatusMessage, db)) := by
  have hfind : findOneJob db J.id f = some J :=
    find?_unique_key PrintJob.id (matchesFilter f) hmem hnodup hmatch
  constructor
  · intro hs
    have hupd : (findOneAndUpdateJob db J.id f (statusUpdate s errMsg)).1
        = some (statusUpdate s errMsg J) := by
      rw [findOneAndUpdateJob_fst, hfind]; rfl
    constructor
    · unfold updatePrintJobStatus
      rw [hs]
      simp only [Bool.not_true, Bool.false_eq_true, if_false]
      rw [hfind]
      rcases hfu : findOneAndUpdateJob db J.id f (statusUpdate s errMsg) with ⟨r1, db2⟩
      rw [hfu] at hupd
      simp only at hupd
      rw [hupd]
    · rfl
  · intro hs
    unfold updatePrintJobStatus
    rw [hs]
    rfl

/-- Witness for the amended C3 at the terminal `"completed"` job being
overwritten with `"pending"`. -/
theorem updateStatus_overwrites_any_whitelisted_status_witness :
    (jobCompletedW ∈ [jobCompletedW] ∧ ([jobCompletedW].map PrintJob.id).Nodup
      ∧ matchesFilter (some "a1") jobCompletedW = true)
  ∧ (validStatuses.contains "pending" = true →
      (updatePrintJobStatus [jobCompletedW] (some "a1") jobCompletedW.id "pending" none).1
        = .ok 200 (statusUpdate "pending" none jobCompletedW)
      ∧ (statusUpdate "pending" none jobCompletedW).status = "pending") :=
  ⟨⟨by decide, by decide, by decide⟩,
   (updateStatus_overwrites_any_whitelisted_status [jobCompletedW] (some "a1")
      jobCompletedW "pending" none (by decide) (by decide) (by decide)).1⟩

/-- Claim C4 counterexample: with two jobs of which one is completed,
`getPrintStats` reports `successRate = 50`, not `completedJobs / totalJobs`
(= 1/2): the handler multiplies the ratio by 100. -/
theorem successRate_counterexample :
    (getPrintStats [jobCompletedW, jobPendingW] none).totalJobs = 2
  ∧ (getPrintStats [jobCompletedW, jobPendingW] none).completedJobs = 1
  ∧ (getPrintStats [jobCompletedW, jobPendingW] none).successRate = 50
  ∧ (getPrintStats [jobCompletedW, jobPendingW] none).successRate
      ≠ ((getPrintStats [jobCompletedW, jobPendingW] none).completedJobs : ℚ)
        / ((getPrintStats [jobCompletedW, jobPendingW] none).totalJobs : ℚ) := by
  have hb : ("pending" == "completed") = false := by decide
  refine ⟨rfl, rfl, ?_, ?_⟩ <;>
    norm_num [getPrintStats, matchesFilter, jobCompletedW, jobPendingW, hb]

/-- Claim C4 (amended): `getPrintStats` reports the success rate as a
percentage, `completedJobs * 100 / totalJobs`, with 0 instead of a
division-by-zero when the tenant has no jobs; the completed count never
exceeds the total, so the rate always lies in [0, 100]. -/
theorem successRate_percentage (db : List PrintJob) (f : Option String)
    (s : PrintStats) (hs : s = getPrintStats db f) :
    (s.totalJobs = 0 → s.successRate = 0)
  ∧ (0 < s.totalJobs →
      s.successRate = (s.completedJobs : ℚ) * 100 / (s.totalJobs : ℚ))
  ∧ s.completedJobs ≤ s.totalJobs
  ∧ 0 ≤ s.successRate ∧ s.successRate ≤ 100 := by
  subst hs
  have hle : (getPrintStats db f).completedJobs ≤ (getPrintStats db f).totalJobs :=
    length_filter_and_le (fun j => matchesFilter f j) (fun j => j.status == "completed") db
  have hrate0 : (getPrintStats db f).successRate
      = if 0 < (getPrintStats db f).totalJobs then
          ((getPrintStats db f).completedJobs : ℚ)
            / ((getPrintStats db f).totalJobs : ℚ) * 100
        else 0 := rfl
  rcases Nat.eq_zero_or_pos (getPrintStats db f).totalJobs with h0 | hpos
  · refine ⟨fun _ => ?_, fun hp => absurd h0 (by omega), hle, ?_, ?_⟩
    · rw [hrate0, if_neg (by omega)]
    · rw [hrate0, if_neg (by omega)]
    · rw [hrate0, if_neg (by omega)]
      norm_num
  · have hrate : (getPrintStats db f).successRate
        = ((getPrintStats db f).completedJobs : ℚ) * 100
          / ((getPrintStats db f).totalJobs : ℚ) := by
      rw [hrate0, if_pos hpos, div_mul_eq_mul_div]
    have htQ : (0 : ℚ) < ((getPrintStats db f).totalJobs : ℚ) := by
      exact_mod_cast hpos
    have hcQ : ((getPrintStats db f).completedJobs : ℚ)
        ≤ ((getPrintStats db f).totalJobs : ℚ) := by exact_mod_cast hle
    refine ⟨fun h => absurd h (by omega), fun _ => hrate, hle, ?_, ?_⟩
    · rw [hrate]
      positivity
    · rw [hrate, div_le_iff₀ htQ]
      nlinarith

/-- Witness for the amended C4 on a store with one completed and one pending
job. -/
theorem successRate_percentage_witness :
    ((getPrintStats [jobCompletedW, jobPendingW] none
        = getPrintStats [jobCompletedW, jobPendingW] none)
      ∧ 0 < (getPrintStats [jobCompletedW, jobPendingW] none).totalJobs)
  ∧ (getPrintStats [jobCompletedW, jobPendingW] none).successRate
      = ((getPrintStats [jobCompletedW, jobPendingW] none).completedJobs : ℚ) * 100
        / ((getPrintStats [jobCompletedW, jobPendingW] none).totalJobs : ℚ) :=
  ⟨⟨rfl, by decide⟩,
   ((successRate_percentage [jobCompletedW, jobPendingW] none
      (getPrintStats [jobCompletedW, jobPendingW] none) rfl).2.1 (by decide))⟩

/-- Claim C5: for a valid submission the remote upload is best-effort: for
every upload outcome the job is created (201) with status `"pending"`, and
when the upload failed or returned invalid data the record stores the local
file reference as its `filePath` with no Cloudinary fields — the submission
never fails because of the remote store. -/
theorem submitPDF_upload_best_effort (clientId : Option String)
    (file : Option UploadedFile) (body : SubmitBody) (upload : CloudinaryOutcome)
    (newId cid : String) (f : UploadedFile)
    (hc : clientId = some cid) (hf : file = some f)
    (hfields : (body.artwork == "" || body.width == "" || body.height == "" ||
        body.quantity == "" || body.location == "" || body.adminId == "") = false) :
    (∃ j, submitPDF clientId file body true upload newId = .ok 201 j
       ∧ j.status = "pending")
  ∧ (upload = .failed ∨ upload = .invalidData →
      ∃ j, submitPDF clientId file body true upload newId = .ok 201 j
        ∧ j.filePath = f.path ∧ j.cloudinaryPublicId = none ∧ j.cloudinaryUrl = none) := by
  subst hc hf
  constructor
  · cases upload <;>
      exact ⟨_, by simp only [submitPDF, hfields, Bool.false_eq_true, if_false,
        Bool.not_true]; rfl, rfl⟩
  · rintro (rfl | rfl) <;>
      exact ⟨_, by simp only [submitPDF, hfields, Bool.false_eq_true, if_false,
        Bool.not_true]; rfl, rfl, rfl, rfl⟩

/-- Witness for C5: a concrete valid submission whose Cloudinary upload
throws still creates the pending job on the local file path. -/
theorem submitPDF_upload_best_effort_witness :
    ((some "client1" : Option String) = some "client1"
      ∧ (some (UploadedFile.mk "/tmp/u.pdf" "u.pdf" 9) : Option UploadedFile)
          = some (UploadedFile.mk "/tmp/u.pdf" "u.pdf" 9)
      ∧ ((SubmitBody.mk "poster" "10" "20" "3" "Accra" "a1" "hp" "d").artwork == ""
          || (SubmitBody.mk "poster" "10" "20" "3" "Accra" "a1" "hp" "d").width == ""
          || (SubmitBody.mk "poster" "10" "20" "3" "Accra" "a1" "hp" "d").height == ""
          || (SubmitBody.mk "poster" "10" "20" "3" "Accra" "a1" "hp" "d").quantity == ""
          || (SubmitBody.mk "poster" "10" "20" "3" "Accra" "a1" "hp" "d").location == ""
          || (SubmitBody.mk "poster" "10" "20" "3" "Accra" "a1" "hp" "d").adminId == "")
          = false)
  ∧ (∃ j, submitPDF (some "client1") (some (UploadedFile.mk "/tmp/u.pdf" "u.pdf" 9))
        (SubmitBody.mk "poster" "10" "20" "3" "Accra" "a1" "hp" "d") true
        CloudinaryOutcome.failed "job9" = .ok 201 j
      ∧ j.status = "pending") :=
  ⟨⟨rfl, rfl, by decide⟩,
   (submitPDF_upload_best_effort (some "client1")
      (some (UploadedFile.mk "/tmp/u.pdf" "u.pdf" 9))
      (SubmitBody.mk "poster" "10" "20" "3" "Accra" "a1" "hp" "d")
      CloudinaryOutcome.failed "job9" "client1" (UploadedFile.mk "/tmp/u.pdf" "u.pdf" 9)
      rfl rfl (by decide)).1⟩

/-- Claim C6 counterexample: `ClientController.login` does not behave as
claimed — an inactive client with the correct password logs in successfully
(no `isActive` check), and the unknown-email failure message
("Something went wrong") differs from the password-mismatch message, so the
three failure cases are not answered with one uniform error. -/
theorem clientLogin_counterexample :
    (clientLogin [inactiveClientW] "user@example.com" "secret1" 7).1
      = .ok 200 { inactiveClientW with lastLogin := some 7 }
  ∧ inactiveClientW.isActive = false
  ∧ (clientLogin [] "user@example.com" "secret1" 7).1
      = .err 401 "Something went wrong"
  ∧ (clientLogin [inactiveClientW] "user@example.com" "wrong" 7).1
      = .err 401 "Invalid email or password"
  ∧ "Something went wrong" ≠ "Invalid email or password" := by
  refine ⟨rfl, rfl, rfl, rfl, by decide⟩

/-- Claim C6 (amended): `AuthController.login` (admins and clerks) answers
unknown email, inactive account and password mismatch with the same 401
"Invalid email or password" and updates `lastLogin` on success;
`ClientController.login`, however, answers an unknown email with 401
"Something went wrong", only a password mismatch with 401
"Invalid email or password", performs no `isActive` check at all — so an
inactive client with the correct password logs in — and updates `lastLogin`
on success. -/
theorem login_failure_modes (admins : List AdminAccount) (clerks : List ClerkAccount)
    (cdb : List ClientAccount) (email pw : String) (now : Nat) :
    ((∀ u ∈ admins, (u.email == email && u.isActive) = false) →
     (∀ k ∈ clerks, (k.email == email && k.isActive) = false) →
     (authLogin admins clerks email pw now).1 = .err 401 "Invalid email or password")
  ∧ (∀ u, admins.find? (fun x => x.email == email && x.isActive) = some u →
      pw ≠ u.password →
      (authLogin admins clerks email pw now).1 = .err 401 "Invalid email or password")
  ∧ (∀ k, admins.find? (fun x => x.email == email && x.isActive) = none →
      clerks.find? (fun x => x.email == email && x.isActive) = some k →
      pw ≠ k.password →
      (authLogin admins clerks email pw now).1 = .err 401 "Invalid email or password")
  ∧ (∀ u, admins.find? (fun x => x.email == email && x.isActive) = some u →
      pw = u.password →
      authLogin admins clerks email pw now
        = (.ok 200 "admin",
           saveFirst (fun x => x.email == email && x.isActive)
             (fun x => { x with lastLogin := some now }) admins,
           clerks))
  ∧ (∀ k, admins.find? (fun x => x.email == email && x.isActive) = none →
      clerks.find? (fun x => x.email == email && x.isActive) = some k →
      pw = k.password →
      authLogin admins clerks email pw now
        = (.ok 200 "clerk", admins,
           saveFirst (fun x => x.email == email && x.isActive)
             (fun x => { x with lastLogin := some now }) clerks))
  ∧ ((∀ c ∈ cdb, (c.email == email) = false) →
      (clientLogin cdb email pw now).1 = .err 401 "Something went wrong")
  ∧ (∀ c, cdb.find? (fun x => x.email == email) = some c → pw ≠ c.password →
      (clientLogin cdb email pw now).1 = .err 401 "Invalid email or password")
  ∧ (∀ c, cdb.find? (fun x => x.email == email) = some c → pw = c.password →
      clientLogin cdb email pw now
        = (.ok 200 { c with lastLogin := some now },
           saveFirst (fun x => x.email == email)
             (fun x => { x with lastLogin := some now }) cdb)) := by
  refine ⟨?_, ?_, ?_, ?_, ?_, ?_, ?_, ?_⟩
  · intro hA hK
    unfold authLogin
    rw [List.find?_eq_none.mpr (by intro u hu; simp [hA u hu]),
        List.find?_eq_none.mpr (by intro k hk; simp [hK k hk])]
  · intro u hu hpw
    simp only [authLogin, hu]
    rw [if_neg (by simpa using hpw)]
  · intro k hA hk hpw
    simp only [authLogin, hA, hk]
    rw [if_neg (by simpa using hpw)]
  · intro u hu hpw
    simp only [authLogin, hu]
    rw [if_pos (by simpa using hpw)]
  · intro k hA hk hpw
    simp only [authLogin, hA, hk]
    rw [if_pos (by simpa using hpw)]
  · intro hC
    unfold clientLogin
    rw [List.find?_eq_none.mpr (by intro c hc; simp [hC c hc])]
  · intro c hc hpw
    simp only [clientLogin, hc]
    rw [if_neg (by simpa using hpw)]
  · intro c hc hpw
    simp only [clientLogin, hc]
    rw [if_pos (by simpa using hpw)]

/-- Witness for the amended C6: a clerk logging in with the correct password
gets the clerk success response and its `lastLogin` set, and a client with a
wrong password gets the mismatch error. -/
theorem login_failure_modes_witness :
    (List.find? (fun x => x.email == "clerk@example.com" && x.isActive)
        ([] : List AdminAccount) = none
      ∧ List.find? (fun x => x.email == "clerk@example.com" && x.isActive)
          [activeClerkW] = some activeClerkW
      ∧ "pw1" = activeClerkW.password)
  ∧ authLogin [] [activeClerkW] "clerk@example.com" "pw1" 7
      = (.ok 200 "clerk", ([] : List AdminAccount),
         saveFirst (fun x => x.email == "clerk@example.com" && x.isActive)
           (fun x => { x with lastLogin := some 7 }) [activeClerkW])
  ∧ (List.find? (fun x => x.email == "user@example.com") [inactiveClientW]
        = some inactiveClientW
      ∧ "wrongpw" ≠ inactiveClientW.password)
  ∧ (clientLogin [inactiveClientW] "user@example.com" "wrongpw" 7).1
      = .err 401 "Invalid email or password" :=
  ⟨⟨by decide, by decide, by decide⟩,
   (login_failure_modes [] [activeClerkW] [inactiveClientW] "clerk@example.com"
      "pw1" 7).2.2.2.2.1 activeClerkW (by decide) (by decide) (by decide),
   ⟨by decide, by decide⟩,
   (login_failure_modes [] [activeClerkW] [inactiveClientW] "user@example.com"
      "wrongpw" 7).2.2.2.2.2.2.1 inactiveClientW (by decide) (by decide)⟩

/-- After the new-record branch of `sendOTP` rolls its insertion back, no
valid OTP for the email remains (the branch had already deleted the older
unverified ones). -/
theorem findValidOTP_after_new_rollback (db : List OTPRecord) (email : String)
    (now : Nat) (freshCode : String) (freshId : Nat) :
    findValidOTP (deleteOTPById (deleteUnverifiedOTPs db email ++
      [{ oid := freshId, email := email, otp := freshCode,
         expiresAt := now + 30 * 60 * 1000, verified := false, attempts := 0 }]) freshId)
      email now = none := by
  apply List.find?_eq_none.mpr
  intro r hr
  rw [deleteOTPById, List.mem_filter] at hr
  obtain ⟨hr1, hr2⟩ := hr
  intro hpred
  rcases List.mem_append.mp hr1 with h | h
  · rw [deleteUnverifiedOTPs, List.mem_filter] at h
    obtain ⟨-, hcond⟩ := h
    simp only [Bool.not_eq_eq_eq_not, Bool.not_true, Bool.and_eq_false_imp] at hcond
    simp only [Bool.and_eq_true, beq_iff_eq] at hpred
    have hver := hcond (by simp [hpred.1.1])
    simp [hver] at hpred
  · have : r.oid = freshId := by
      rcases List.mem_singleton.mp h with rfl
      rfl
    simp [this] at hr2

/-- After the reuse branch of `sendOTP` (or the exhaustion branch of
`verifyOTP`) deletes the found record, no valid OTP for the email remains,
provided the store held at most one. -/
theorem findValidOTP_after_delete_found (db : List OTPRecord) (email : String)
    (now : Nat) (r : OTPRecord)
    (hfv : findValidOTP db email now = some r)
    (huniq : ∀ r1 ∈ db, ∀ r2 ∈ db,
      (r1.email == email && !r1.verified && decide (now < r1.expiresAt)) = true →
      (r2.email == email && !r2.verified && decide (now < r2.expiresAt)) = true →
      r1 = r2) :
    findValidOTP (deleteOTPById db r.oid) email now = none := by
  apply List.find?_eq_none.mpr
  intro x hx
  rw [deleteOTPById, List.mem_filter] at hx
  obtain ⟨hx1, hx2⟩ := hx
  intro hpred
  have hrmem := List.mem_of_find?_eq_some hfv
  have hrpred := List.find?_some hfv
  have hxr : x = r := huniq x hx1 r hrmem hpred hrpred
  subst hxr
  simp at hx2

/-- A record returned by `findValidOTP` is not expired. -/
theorem not_expired_of_findValidOTP (db : List OTPRecord) (email : String)
    (now : Nat) (r : OTPRecord) (hfv : findValidOTP db email now = some r) :
    otpIsExpired r now = false := by
  have hrpred := List.find?_some hfv
  simp only [Bool.and_eq_true, decide_eq_true_eq] at hrpred
  simp only [otpIsExpired, decide_eq_false_iff_not]
  omega

/-- Claim C7: when the email dispatch of `sendOTP` fails, the OTP record is
rolled back — no valid-but-undeliverable code remains for the email — and the
call fails with the 500 delivery error instead of a success response. -/
theorem sendOTP_rollback_on_delivery_failure (db : List OTPRecord) (email : String)
    (now : Nat) (freshCode : String) (freshId : Nat)
    (huniq : ∀ r1 ∈ db, ∀ r2 ∈ db,
      (r1.email == email && !r1.verified && decide (now < r1.expiresAt)) = true →
      (r2.email == email && !r2.verified && decide (now < r2.expiresAt)) = true →
      r1 = r2) :
    (sendOTP db email now freshCode freshId false).resp
      = .err 500 "Failed to send OTP email. Please try again."
  ∧ findValidOTP (sendOTP db email now freshCode freshId false).db email now = none := by
  cases hfv : findValidOTP db email now with
  | none =>
    constructor
    · simp [sendOTP, hfv]
    · simp only [sendOTP, hfv, Bool.false_eq_true, if_false]
      exact findValidOTP_after_new_rollback db email now freshCode freshId
  | some r =>
    by_cases hval : otpIsValid r now = true
    · constructor
      · simp [sendOTP, hfv, hval]
      · simp only [sendOTP, hfv, hval, if_true, Bool.false_eq_true, if_false]
        exact findValidOTP_after_delete_found db email now r hfv huniq
    · rw [Bool.not_eq_true] at hval
      constructor
      · simp [sendOTP, hfv, hval]
      · simp only [sendOTP, hfv, hval, Bool.false_eq_true, if_false]
        exact findValidOTP_after_new_rollback db email now freshCode freshId

/-- Witness for C7: a store holding one valid OTP, dispatch failing. -/
theorem sendOTP_rollback_on_delivery_failure_witness :
    (∀ r1 ∈ [otpRecordW], ∀ r2 ∈ [otpRecordW],
        (r1.email == "user@example.com" && !r1.verified && decide (5 < r1.expiresAt)) = true →
        (r2.email == "user@example.com" && !r2.verified && decide (5 < r2.expiresAt)) = true →
        r1 = r2)
  ∧ ((sendOTP [otpRecordW] "user@example.com" 5 "654321" 2 false).resp
      = .err 500 "Failed to send OTP email. Please try again."
    ∧ findValidOTP (sendOTP [otpRecordW] "user@example.com" 5 "654321" 2 false).db
        "user@example.com" 5 = none) :=
  ⟨by decide,
   sendOTP_rollback_on_delivery_failure [otpRecordW] "user@example.com" 5 "654321" 2
     (by decide)⟩

/-- Claim C8: a wrong `verifyOTP` call bumps the record's `attempts` by
exactly one and reports the remaining-attempts count; once `attempts` has
reached 5, any further call — even with the correct code and before expiry —
is refused with the exhaustion error and the record is deleted, so no valid
OTP for the email remains and a new send is required. -/
theorem verifyOTP_attempt_accounting (db : List OTPRecord) (email code : String)
    (now : Nat) (r : OTPRecord)
    (hfv : findValidOTP db email now = some r)
    (huniq : ∀ r1 ∈ db, ∀ r2 ∈ db,
      (r1.email == email && !r1.verified && decide (now < r1.expiresAt)) = true →
      (r2.email == email && !r2.verified && decide (now < r2.expiresAt)) = true →
      r1 = r2) :
    (r.attempts < 5 → r.otp ≠ code →
      verifyOTP db email code now
        = { status := 400, success := false,
            message := "Invalid OTP. " ++
              (if 5 - (r.attempts + 1) > 0 then
                toString (5 - (r.attempts + 1)) ++ " attempt(s) remaining."
               else "Maximum attempts exceeded."),
            remainingAttempts := some (5 - (r.attempts + 1)),
            db := saveFirst (fun x => x.oid == r.oid)
              (fun x => { x with attempts := x.attempts + 1 }) db })
  ∧ (r.attempts ≥ 5 →
      verifyOTP db email code now
        = { status := 400, success := false,
            message := "Maximum verification attempts exceeded. Please request a new OTP.",
            remainingAttempts := none, db := deleteOTPById db r.oid }
      ∧ findValidOTP (deleteOTPById db r.oid) email now = none) := by
  have hexp := not_expired_of_findValidOTP db email now r hfv
  constructor
  · intro hatt hwrong
    simp only [verifyOTP, hfv]
    rw [if_neg (by omega), if_neg (by simp [hexp]), if_pos (by simpa using hwrong)]
  · intro hatt
    constructor
    · simp only [verifyOTP, hfv]
      rw [if_pos hatt]
    · exact findValidOTP_after_delete_found db email now r hfv huniq

/-- Witness for C8: a record at 5 attempts refuses even the correct code and
is deleted. -/
theorem verifyOTP_attempt_accounting_witness :
    (findValidOTP [{ otpRecordW with attempts := 5 }] "user@example.com" 5
        = some { otpRecordW with attempts := 5 }
      ∧ (∀ r1 ∈ [{ otpRecordW with attempts := 5 }],
          ∀ r2 ∈ [{ otpRecordW with attempts := 5 }],
          (r1.email == "user@example.com" && !r1.verified && decide (5 < r1.expiresAt)) = true →
          (r2.email == "user@example.com" && !r2.verified && decide (5 < r2.expiresAt)) = true →
          r1 = r2)
      ∧ { otpRecordW with attempts := 5 }.attempts ≥ 5
      ∧ { otpRecordW with attempts := 5 }.otp = "123456")
  ∧ (verifyOTP [{ otpRecordW with attempts := 5 }] "user@example.com" "123456" 5
        = { status := 400, success := false,
            message := "Maximum verification attempts exceeded. Please request a new OTP.",
            remainingAttempts := none,
            db := deleteOTPById [{ otpRecordW with attempts := 5 }]
              { otpRecordW with attempts := 5 }.oid }
      ∧ findValidOTP
          (deleteOTPById [{ otpRecordW with attempts := 5 }]
            { otpRecordW with attempts := 5 }.oid) "user@example.com" 5 = none) :=
  ⟨⟨by decide, by decide, by decide, by decide⟩,
   (verifyOTP_attempt_accounting [{ otpRecordW with attempts := 5 }] "user@example.com"
      "123456" 5 { otpRecordW with attempts := 5 } (by decide) (by decide)).2
     (by decide)⟩

/-- Claim C9: a second `sendOTP` within the expiry window with the first code
unverified is idempotent — it answers 200, leaves the store untouched and
dispatches the same outstanding code instead of the freshly drawn one — and
verifying with the originally-sent code still succeeds afterwards. -/
theorem sendOTP_idempotent_reuse (db : List OTPRecord) (email : String)
    (now : Nat) (freshCode : String) (freshId : Nat) (r : OTPRecord)
    (hfv : findValidOTP db email now = some r) (hatt : r.attempts < 5) :
    sendOTP db email now freshCode freshId true
      = { resp := .ok 200 "OTP sent successfully to your email", db := db, sentCode := r.otp }
  ∧ (verifyOTP db email r.otp now).status = 200
  ∧ (verifyOTP db email r.otp now).success = true
  ∧ (verifyOTP db email r.otp now).db
      = saveFirst (fun x => x.oid == r.oid) (fun x => { x with verified := true }) db := by
  have hexp := not_expired_of_findValidOTP db email now r hfv
  have hpred := List.find?_some hfv
  have hval : otpIsValid r now = true := by
    simp only [Bool.and_eq_true] at hpred
    simp [otpIsValid, hexp, hpred.1.2, hatt]
  have hver : verifyOTP db email r.otp now
      = { status := 200, success := true, message := "Email verified successfully",
          remainingAttempts := none,
          db := saveFirst (fun x => x.oid == r.oid)
            (fun x => { x with verified := true }) db } := by
    simp only [verifyOTP, hfv]
    rw [if_neg (by omega), if_neg (by simp [hexp]), if_neg (by simp)]
  refine ⟨?_, by rw [hver], by rw [hver], by rw [hver]⟩
  simp [sendOTP, hfv, hval]

/-- Witness for C9: resending for an email holding a fresh valid code reuses
it and the original code still verifies. -/
theorem sendOTP_idempotent_reuse_witness :
    (findValidOTP [otpRecordW] "user@example.com" 5 = some otpRecordW
      ∧ otpRecordW.attempts < 5)
  ∧ (sendOTP [otpRecordW] "user@example.com" 5 "999999" 2 true
      = { resp := .ok 200 "OTP sent successfully to your email",
          db := [otpRecordW], sentCode := otpRecordW.otp }
    ∧ (verifyOTP [otpRecordW] "user@example.com" otpRecordW.otp 5).status = 200
    ∧ (verifyOTP [otpRecordW] "user@example.com" otpRecordW.otp 5).success = true
    ∧ (verifyOTP [otpRecordW] "user@example.com" otpRecordW.otp 5).db
        = saveFirst (fun x => x.oid == otpRecordW.oid)
            (fun x => { x with verified := true }) [otpRecordW]) :=
  ⟨⟨by decide, by decide⟩,
   sendOTP_idempotent_reuse [otpRecordW] "user@example.com" 5 "999999" 2 otpRecordW
     (by decide) (by decide)⟩

/-- Claim C10 counterexample: `updateUser` can store custom permissions: when
permissions are updated without touching the role, the pre-save hook does not
run, so a stored clerk-role user ends up with permissions different from the
role's default set — "every stored User's permissions always equal its role's
default set" is false. -/
theorem storedPermissions_counterexample :
    (updateUserDoc (createUser "a@b.co" "Ada" Role.clerk (some ["manage_users"]))
        none (some ["manage_users"])).permissions = ["manage_users"]
  ∧ (updateUserDoc (createUser "a@b.co" "Ada" Role.clerk (some ["manage_users"]))
        none (some ["manage_users"])).role = Role.clerk
  ∧ ["manage_users"] ≠ rolePermissions Role.clerk := by
  refine ⟨rfl, rfl, by decide⟩

/-- Claim C10 (amended): every save with a modified role — which includes
every creation, where the role is assigned explicitly — overwrites the
document's permissions with the fixed `ROLE_PERMISSIONS` set of its role, so
custom permissions supplied to `createUser` are silently discarded; but an
update that changes permissions without changing the role bypasses the hook,
so a stored user's permissions need not equal the role's default set. -/
theorem saveHook_overwrites_permissions (u : UserDoc) (roleModified : Bool)
    (email name : String) (role : Role) (reqPerms : Option (List String))
    (h : roleModified = true) :
    (applySaveHook roleModified u).permissions = rolePermissions u.role
  ∧ (createUser email name role reqPerms).permissions = rolePermissions role
  ∧ (createUser email name role reqPerms).role = role := by
  subst h
  exact ⟨rfl, rfl, rfl⟩

/-- Witness for the amended C10: the hook fires on a role-modified save and
creation discards requested permissions. -/
theorem saveHook_overwrites_permissions_witness :
    (true = true)
  ∧ ((applySaveHook true (UserDoc.mk "a@b.co" "Ada" Role.clerk ["x"] true)).permissions
        = rolePermissions (UserDoc.mk "a@b.co" "Ada" Role.clerk ["x"] true).role
    ∧ (createUser "a@b.co" "Ada" Role.clerk (some ["manage_users"])).permissions
        = rolePermissions Role.clerk
    ∧ (createUser "a@b.co" "Ada" Role.clerk (some ["manage_users"])).role = Role.clerk) :=
  ⟨rfl,
   saveHook_overwrites_permissions (UserDoc.mk "a@b.co" "Ada" Role.clerk ["x"] true)
     true "a@b.co" "Ada" Role.clerk (some ["manage_users"]) rfl⟩

end PiperServer
